import Mathlib

/-!
# Verification of the comex reporting app's query/export core (src/app.py)

Shallow embedding of the query-building, query-execution, CSV-export and
connection-lifecycle logic of `src/app.py`.  Queries are modelled as the
exact strings the Python f-strings produce; parameter binding is modelled
as a separate list of bound values; the sqlite/pandas execution layer is
an abstract `run` function supplied as a parameter.
-/

namespace Comex

/-- Python's `sep.join(xs)`: empty for `[]`, the single element for `[x]`,
and elements interleaved with `sep` otherwise.  Used by `", ".join(...)`
and `" AND ".join(...)` in `app.py`. -/
def pyJoin (sep : String) : List String → String
  | [] => ""
  | [x] => x
  | x :: y :: ys => x ++ sep ++ pyJoin sep (y :: ys)

/-- Python's `s[:n]` slice on a string (at most the first `n` characters). -/
def pySlice (n : Nat) (s : String) : String := String.mk (s.data.take n)

/-- `leadsWith p s`: the character list `p` starts the character list `s`. -/
def leadsWith : List Char → List Char → Bool
  | [], _ => true
  | _ :: _, [] => false
  | a :: as, b :: bs => a == b && leadsWith as bs

/-- `occursIn p s`: the character list `p` occurs contiguously inside `s`. -/
def occursIn : List Char → List Char → Bool
  | p, [] => leadsWith p []
  | p, c :: cs => leadsWith p (c :: cs) || occursIn p cs

/-- `strContains s pat`: the string `pat` occurs as a contiguous substring
of the string `s`. -/
def strContains (s pat : String) : Bool := occursIn pat.data s.data

/-- Modelled from the spec: the relational engine's evaluation of a
`LIKE '%v%'` clause on a row value (spec §8: the clause "matches rows
containing `v`" as a substring).  The engine itself is outside `src/`;
for the digit-only values of the spec's example, ASCII case folding is
irrelevant. -/
def likeContains (v rowValue : String) : Bool := strContains rowValue v

/-- A cell of a pandas DataFrame as the app uses it: null (NaN), a number,
or text.  Serialization follows pandas' default stringification. -/
inductive Cell where
  | null : Cell
  | num (n : Int) : Cell
  | text (s : String) : Cell
deriving DecidableEq, Repr

/-- pandas' default CSV stringification of a cell: NaN prints as the empty
field, numbers via `str`, text verbatim. -/
def Cell.toCsvString : Cell → String
  | .null => ""
  | .num n => toString n
  | .text s => s

/-- A materialized query result: ordered column names and rows. -/
structure DataFrame where
  columns : List String
  rows : List (List Cell)
deriving DecidableEq, Repr

/-- CSV field serialization with minimal quoting (pandas/`csv` default):
a field containing a comma, double quote or line break is wrapped in
double quotes with inner quotes doubled. -/
def csvField (s : String) : String :=
  if s.data.any (fun c => c == ',' || c == '"' || c == '\n' || c == '\r') then
    "\"" ++ String.mk (s.data.flatMap (fun c => if c == '"' then ['"', '"'] else [c])) ++ "\""
  else s

/-- One CSV line: the fields serialized and comma-joined. -/
def csvLine (fields : List String) : String := pyJoin "," (fields.map csvField)

/-- The row-writing loop of `DataFrame.to_csv`: each row becomes one line;
with `index = true` the positional index `i` is prepended to the row. -/
def writeCsvRows (index : Bool) (i : Nat) : List (List Cell) → String
  | [] => ""
  | r :: rs =>
      csvLine ((if index then [toString i] else []) ++ r.map Cell.toCsvString) ++ "\n" ++
        writeCsvRows index (i + 1) rs

/-- pandas `df.to_csv(index=...)`: header line (with an empty leading field
for the unnamed index when `index = true`) followed by one line per row. -/
def DataFrame.to_csv (df : DataFrame) (index : Bool) : String :=
  csvLine ((if index then [""] else []) ++ df.columns) ++ "\n" ++ writeCsvRows index 0 df.rows

/-- `app.py` line 59-61: `download_csv(df)` returns `df.to_csv(index=False)`. -/
def download_csv (df : DataFrame) : String := df.to_csv false

/-- Outcome of handing a query to the sqlite/pandas layer: either a
DataFrame or a raised exception's message.  The layer itself is the
external store; page code is parametrized by it. -/
inductive ExecOutcome where
  | ok (df : DataFrame) : ExecOutcome
  | err (msg : String) : ExecOutcome
deriving DecidableEq, Repr

/-- `app.py` lines 50-57: `execute_query` runs the query inside
`try/except Exception`, returning `(df, None)` on success and
`(None, str(e))` when the execution raises.  `run` is the external
store's behavior on the query string. -/
def execute_query (run : String → ExecOutcome) (query : String) :
    Option DataFrame × Option String :=
  match run query with
  | .ok df => (some df, none)
  | .err e => (none, some e)

/-- Connections left open by `execute_query` (lines 50-57): the connection
is opened inside the `try`; `conn.close()` is reached only when
`pd.read_sql_query` does not raise — the `except` branch returns with the
connection still open. -/
def execute_query_openConns (run : String → ExecOutcome) (query : String) : Nat :=
  match run query with
  | .ok _ => 0
  | .err _ => 1

/-! ## show_custom_query (lines 85-108) -/

/-- The query handed to the store by `show_custom_query` and the parameters
bound to it.  Lines 91-93: the `st.button`/`if query:` guards pass the
text-area content to `execute_query(query)` unchanged, which hands it to
`pd.read_sql_query(query, conn)` with no `params` argument — no rewriting,
sanitization, validation or parameter binding happens on the way.  `none`
when the text area is empty (falsy), so nothing executes. -/
def show_custom_query_executed (query : String) : Option (String × List String) :=
  if query = "" then none else some (query, [])

/-- The `(df, error)` pair `show_custom_query` observes for a non-empty
query: exactly `execute_query` applied to the verbatim text. -/
def show_custom_query_result (run : String → ExecOutcome) (query : String) :
    Option (Option DataFrame × Option String) :=
  if query = "" then none else some (execute_query run query)

/-! ## show_export (lines 110-160) -/

/-- Lines 135-139: the filter loop.  For each column chosen in
`filter_cols` (paired here with the text typed into its `st.text_input`),
a clause `f"{col} LIKE '%{filter_value}%'"` is appended when the typed
value is non-empty (truthy). -/
def export_where_clauses (filters : List (String × String)) : List String :=
  filters.filterMap fun cv =>
    if cv.2 = "" then none
    else some (cv.1 ++ " LIKE '%" ++ cv.2 ++ "%'")

/-- Lines 126-142: the export query.  Guarded by `if selected_columns:`
(no query on an empty selection); base text
`f"SELECT {columns_str} FROM {selected_table}"` with the column names
comma-joined and the table name interpolated; when any filter clause
exists, a single `" WHERE "` followed by the `" AND "`-join of the
clauses is appended. -/
def show_export_query (table : String) (selectedColumns : List String)
    (filters : List (String × String)) : Option String :=
  match selectedColumns with
  | [] => none
  | c :: cs =>
      let base := "SELECT " ++ pyJoin ", " (c :: cs) ++ " FROM " ++ table
      let wc := export_where_clauses filters
      some (if wc = [] then base else base ++ " WHERE " ++ pyJoin " AND " wc)

/-! ## show_cnpj_search (lines 162-208) -/

/-- Lines 171-176: the company-lookup query text.  A fixed string — the
user's CNPJ input never appears in it. -/
def cnpj_search_query_text : String :=
  "\n        SELECT e.*, est.* \n        FROM Empresas e \n        LEFT JOIN Estabelecimentos est ON e.cnpj_basico = est.cnpj_basico \n        WHERE e.cnpj_basico = ?\n        "

/-- Lines 167-178: for a non-empty (truthy) CNPJ input the page issues
`pd.read_sql_query(query, conn, params=(cnpj[:8],))`: the fixed query
text with the 8-character CNPJ prefix as the single bound parameter. -/
def show_cnpj_search_request (cnpj : String) : Option (String × List String) :=
  if cnpj = "" then none else some (cnpj_search_query_text, [pySlice 8 cnpj])

/-- The result the store returns for the CNPJ page's request, for an
abstract parametrized store `run`. -/
def show_cnpj_search_result (run : String → List String → ExecOutcome)
    (cnpj : String) : Option ExecOutcome :=
  (show_cnpj_search_request cnpj).map fun r => run r.1 r.2

/-- Connections left open by `show_cnpj_search`: line 168 opens the
connection inside `if cnpj:` and line 179 closes it right after the read,
before any branching on the result. -/
def show_cnpj_search_openConns (cnpj : String) : Nat :=
  if cnpj = "" then 0
  else
    let opened := 1
    opened - 1

/-! ## show_import_analysis (lines 210-272) -/

/-- Lines 241-248: the filtered-import query text for a non-empty column
selection: `CO_ANO`, `CO_MES` and the comma-joined selected columns, with
`?` placeholders for year and UF. -/
def import_analysis_query_text (selectedColumns : List String) : String :=
  "\n        SELECT \n            CO_ANO,\n            CO_MES,\n            " ++
    pyJoin ", " selectedColumns ++
    "\n        FROM Importacao\n        WHERE CO_ANO = ? AND SG_UF = ?\n        "

/-- Lines 238-250: guarded by `if selected_columns:`; the query text is
built from the selected columns only, and the chosen year and UF are
passed as `params=(ano, uf)` — they never enter the query string. -/
def show_import_analysis_request (selectedColumns : List String)
    (ano uf : String) : Option (String × List String) :=
  match selectedColumns with
  | [] => none
  | c :: cs => some (import_analysis_query_text (c :: cs), [ano, uf])

/-- Connections left open by `show_import_analysis`: line 213 opens the
connection unconditionally; the only `conn.close()` (line 251) sits inside
the `if selected_columns:` block, so an empty selection returns with the
connection still open. -/
def show_import_analysis_openConns (selectedColumns : List String) : Nat :=
  let opened := 1
  match selectedColumns with
  | [] => opened
  | _ :: _ => opened - 1

/-! ## show_dashboard (lines 274-351) -/

/-- Line 289: `", ".join([f"SUM({col}) as {col}" for col in selected_columns])`. -/
def dashboard_agg_columns (selectedColumns : List String) : String :=
  pyJoin ", " (selectedColumns.map fun col => "SUM(" ++ col ++ ") as " ++ col)

/-- Lines 290-298: the top-5-states query — aggregated columns grouped by
`SG_UF`, ordered by `SUM(selected_columns[0]) DESC` only, `LIMIT 5`.
(The f-string's literal pieces are grouped here so that the full
`ORDER BY ... LIMIT 5` clause is one subterm; the resulting string is
the same.) -/
def dashboard_top_states_query (c0 : String) (rest : List String) : String :=
  "\n        SELECT \n            SG_UF,\n            " ++
    dashboard_agg_columns (c0 :: rest) ++
    "\n        FROM Importacao\n        GROUP BY SG_UF\n        " ++
    ("ORDER BY SUM(" ++ c0 ++ ") DESC\n        LIMIT 5") ++ "\n        "

/-- Lines 314-321: the monthly-distribution query — same aggregated
columns grouped and ordered by `CO_MES`. -/
def dashboard_monthly_query (selectedColumns : List String) : String :=
  "\n        SELECT \n            CO_MES,\n            " ++
    dashboard_agg_columns selectedColumns ++
    "\n        FROM Importacao\n        GROUP BY CO_MES\n        ORDER BY CO_MES\n        "

/-- Lines 287-321: guarded by `if selected_columns:`; for a non-empty
selection both dashboard queries are built (top-states, monthly). -/
def show_dashboard_queries (selectedColumns : List String) :
    Option (String × String) :=
  match selectedColumns with
  | [] => none
  | c :: cs => some (dashboard_top_states_query c cs, dashboard_monthly_query (c :: cs))

/-- Connections left open by `show_dashboard`: line 277 opens the
connection unconditionally; the only `conn.close()` (line 324) sits inside
the `if selected_columns:` block, so an empty selection returns with the
connection still open. -/
def show_dashboard_openConns (selectedColumns : List String) : Nat :=
  let opened := 1
  match selectedColumns with
  | [] => opened
  | _ :: _ => opened - 1

/-! ## Sample stores (concrete instances used by witnesses) -/

/-- A store on which every query raises (e.g. a missing table). -/
def runFail : String → ExecOutcome := fun _ => .err "no such table: Foo"

/-- A store on which every query succeeds with a one-row result. -/
def runOk : String → ExecOutcome :=
  fun _ => .ok ⟨["CO_ANO"], [[Cell.num 2023]]⟩

/-- A parametrized store that succeeds with a one-row company record. -/
def runParam : String → List String → ExecOutcome :=
  fun _ _ => .ok ⟨["razao_social"], [[Cell.text "ACME LTDA"]]⟩

/-! ## Toolkit: substring facts used by the query-shape theorems -/

theorem string_data_append (s t : String) : (s ++ t).data = s.data ++ t.data := by
  cases s; cases t; rfl

theorem leadsWith_self_append (p t : List Char) : leadsWith p (p ++ t) = true := by
  induction p with
  | nil => rfl
  | cons a as ih => simp [leadsWith, ih]

theorem occursIn_self_append (p t : List Char) : occursIn p (p ++ t) = true := by
  cases hpt : p ++ t with
  | nil => simp [occursIn, List.append_eq_nil] at hpt ⊢; simp [hpt.1, leadsWith]
  | cons c cs =>
      rw [occursIn, ← hpt, leadsWith_self_append]
      simp

theorem occursIn_cons (p : List Char) (c : Char) (cs : List Char)
    (h : occursIn p cs = true) : occursIn p (c :: cs) = true := by
  rw [occursIn]
  simp [h]

theorem occursIn_append_left (p s t : List Char) (h : occursIn p t = true) :
    occursIn p (s ++ t) = true := by
  induction s with
  | nil => simpa using h
  | cons c cs ih => exact occursIn_cons p c (cs ++ t) ih

theorem leadsWith_append_right (p s t : List Char) (h : leadsWith p s = true) :
    leadsWith p (s ++ t) = true := by
  induction p generalizing s with
  | nil => rfl
  | cons a as ih =>
      cases s with
      | nil => simp [leadsWith] at h
      | cons b bs =>
          simp only [leadsWith, Bool.and_eq_true] at h
          simp only [List.cons_append, leadsWith, Bool.and_eq_true]
          exact ⟨h.1, ih bs h.2⟩

theorem occursIn_append_right (p s t : List Char) (h : occursIn p s = true) :
    occursIn p (s ++ t) = true := by
  induction s with
  | nil =>
      cases p with
      | nil => exact occursIn_self_append [] t
      | cons a as => simp [occursIn, leadsWith] at h
  | cons c cs ih =>
      rw [occursIn] at h
      rcases Bool.or_eq_true_iff.mp h with h1 | h2
      · rw [List.cons_append, occursIn]
        rw [← List.cons_append]
        rw [leadsWith_append_right p (c :: cs) t h1]
        simp
      · exact occursIn_cons p c (cs ++ t) (ih h2)

theorem strContains_refl (s : String) : strContains s s = true := by
  have := occursIn_self_append s.data []
  simpa [strContains] using this

theorem strContains_append_left (s t pat : String) (h : strContains t pat = true) :
    strContains (s ++ t) pat = true := by
  rw [strContains, string_data_append]
  exact occursIn_append_left pat.data s.data t.data h

theorem strContains_append_right (s t pat : String) (h : strContains s pat = true) :
    strContains (s ++ t) pat = true := by
  rw [strContains, string_data_append]
  exact occursIn_append_right pat.data s.data t.data h

theorem strContains_mem_pyJoin (sep : String) (l : List String) (x : String)
    (hx : x ∈ l) : strContains (pyJoin sep l) x = true := by
  induction l with
  | nil => cases hx
  | cons a as ih =>
      cases as with
      | nil =>
          rcases List.mem_singleton.mp hx with rfl
          exact strContains_refl x
      | cons b bs =>
          rcases List.mem_cons.mp hx with rfl | hmem
          · rw [pyJoin]
            exact strContains_append_right _ _ _
              (strContains_append_right _ _ _ (strContains_refl x))
          · rw [pyJoin]
            rw [String.append_assoc]
            exact strContains_append_left _ _ _
              (strContains_append_left _ _ _ (ih hmem))

theorem clause_mem_export_where_clauses (filters : List (String × String))
    (col v : String) (hmem : (col, v) ∈ filters) (hv : v ≠ "") :
    (col ++ " LIKE '%" ++ v ++ "%'") ∈ export_where_clauses filters := by
  refine List.mem_filterMap.mpr ⟨(col, v), hmem, ?_⟩
  simp [hv]

theorem writeCsvRows_no_index (i : Nat) (rows : List (List Cell)) :
    writeCsvRows false i rows =
      (rows.map fun r => csvLine (r.map Cell.toCsvString) ++ "\n").foldr (· ++ ·) "" := by
  induction rows generalizing i with
  | nil => rfl
  | cons r rs ih =>
      simp only [writeCsvRows, List.map_cons, List.foldr_cons, ih (i + 1)]
      simp [String.append_assoc]

/-! ## Claim theorems -/

/-- C3: on an empty selected-column set no query is constructed in
`show_export`, `show_import_analysis` or `show_dashboard` — each builder
is guarded by `if selected_columns:` and yields nothing executable. -/
theorem empty_selection_builds_no_query (table : String)
    (filters : List (String × String)) (ano uf : String) :
    show_export_query table [] filters = none ∧
    show_import_analysis_request [] ano uf = none ∧
    show_dashboard_queries [] = none :=
  ⟨rfl, rfl, rfl⟩

/-- C4: when execution of a query fails, `execute_query` returns
`(None, error message)` — a single terminal failure with no partial
DataFrame; when it succeeds, it returns `(result, None)`. -/
theorem execute_query_terminal_failure (run : String → ExecOutcome)
    (q : String) (df : DataFrame) (e : String) :
    (run q = .err e → execute_query run q = (none, some e)) ∧
    (run q = .ok df → execute_query run q = (some df, none)) := by
  constructor <;> intro h <;> simp [execute_query, h]

/-- Witness for C4 at concrete failing and succeeding stores. -/
theorem execute_query_terminal_failure_witness :
    execute_query runFail "SELECT * FROM Foo" = (none, some "no such table: Foo") ∧
    execute_query runOk "SELECT CO_ANO FROM Importacao" =
      (some ⟨["CO_ANO"], [[Cell.num 2023]]⟩, none) :=
  ⟨(execute_query_terminal_failure runFail "SELECT * FROM Foo"
      ⟨["CO_ANO"], [[Cell.num 2023]]⟩ "no such table: Foo").1 rfl,
   (execute_query_terminal_failure runOk "SELECT CO_ANO FROM Importacao"
      ⟨["CO_ANO"], [[Cell.num 2023]]⟩ "no such table: Foo").2 rfl⟩

/-- C9: `execute_query` is total with an exclusive outcome: whatever the
store does with the query, exactly one component of the returned pair is
`None` (the `try/except Exception` converts every raised exception into
the string component, so nothing escapes to the caller). -/
theorem execute_query_exclusive_outcome (run : String → ExecOutcome)
    (q : String) :
    ((execute_query run q).1 = none ∧ (execute_query run q).2 ≠ none) ∨
    ((execute_query run q).1 ≠ none ∧ (execute_query run q).2 = none) := by
  cases h : run q <;> simp [execute_query, h]

/-- C5: in ad-hoc mode a non-empty user query string reaches the store
verbatim — `show_custom_query` hands the exact text to `execute_query`
with an empty parameter list and no rewriting, sanitization or
validation. -/
theorem custom_query_verbatim (run : String → ExecOutcome) (q : String)
    (h : q ≠ "") :
    show_custom_query_executed q = some (q, []) ∧
    show_custom_query_result run q = some (execute_query run q) := by
  constructor <;> simp [show_custom_query_executed, show_custom_query_result, h]

/-- Witness for C5 at a concrete ad-hoc query. -/
theorem custom_query_verbatim_witness :
    ("SELECT * FROM Empresas" ≠ "") ∧
    (show_custom_query_executed "SELECT * FROM Empresas" =
        some ("SELECT * FROM Empresas", []) ∧
      show_custom_query_result runOk "SELECT * FROM Empresas" =
        some (execute_query runOk "SELECT * FROM Empresas")) :=
  ⟨by decide, custom_query_verbatim runOk "SELECT * FROM Empresas" (by decide)⟩

/-- C1: in `show_export`, every selected filter column with a non-empty
value `v` contributes the clause `col LIKE '%v%'` with `v` interpolated
directly as text; all clauses are joined with `" AND "` after a single
`" WHERE "`; and the engine's `LIKE '%60%'` matches `"1160"` (contains
`"60"`) but not `"0059"`. -/
theorem export_filter_clause_interpolated (table col v c0 : String)
    (cs : List String) (filters : List (String × String))
    (hmem : (col, v) ∈ filters) (hv : v ≠ "") :
    show_export_query table (c0 :: cs) filters =
      some ("SELECT " ++ pyJoin ", " (c0 :: cs) ++ " FROM " ++ table ++
        " WHERE " ++ pyJoin " AND " (export_where_clauses filters)) ∧
    strContains ("SELECT " ++ pyJoin ", " (c0 :: cs) ++ " FROM " ++ table ++
        " WHERE " ++ pyJoin " AND " (export_where_clauses filters))
      (col ++ " LIKE '%" ++ v ++ "%'") = true ∧
    likeContains "60" "1160" = true ∧
    likeContains "60" "0059" = false := by
  have hcl := clause_mem_export_where_clauses filters col v hmem hv
  have hne : export_where_clauses filters ≠ [] := List.ne_nil_of_mem hcl
  refine ⟨?_, ?_, by decide, by decide⟩
  · simp [show_export_query, hne]
  · exact strContains_append_left _ _ _ (strContains_mem_pyJoin " AND " _ _ hcl)

/-- Witness for C1: one filter `CNPJ = "60"` on a one-column selection. -/
theorem export_filter_clause_interpolated_witness :
    ((("CNPJ", "60") ∈ [("CNPJ", "60")]) ∧ ("60" : String) ≠ "") ∧
    (show_export_query "Estabelecimentos" ["CNPJ"] [("CNPJ", "60")] =
      some ("SELECT " ++ pyJoin ", " ["CNPJ"] ++ " FROM " ++ "Estabelecimentos" ++
        " WHERE " ++ pyJoin " AND " (export_where_clauses [("CNPJ", "60")])) ∧
    strContains ("SELECT " ++ pyJoin ", " ["CNPJ"] ++ " FROM " ++ "Estabelecimentos" ++
        " WHERE " ++ pyJoin " AND " (export_where_clauses [("CNPJ", "60")]))
      ("CNPJ" ++ " LIKE '%" ++ "60" ++ "%'") = true ∧
    likeContains "60" "1160" = true ∧
    likeContains "60" "0059" = false) :=
  ⟨⟨by simp, by decide⟩,
   export_filter_clause_interpolated "Estabelecimentos" "CNPJ" "60" "CNPJ" []
     [("CNPJ", "60")] (by simp) (by decide)⟩

/-- C2: in `show_dashboard`, for a non-empty selection every selected
column `c` is wrapped as `SUM(c) as c` in both queries; the top-states
query groups by `SG_UF` and orders by `SUM` of the first selected column
descending, immediately followed by `LIMIT 5` (no secondary tie-break);
the monthly query groups by `CO_MES`. -/
theorem dashboard_aggregate_query_shape (c0 : String) (rest : List String)
    (c : String) (hc : c ∈ c0 :: rest) :
    show_dashboard_queries (c0 :: rest) =
      some (dashboard_top_states_query c0 rest,
            dashboard_monthly_query (c0 :: rest)) ∧
    strContains (dashboard_top_states_query c0 rest)
      ("SUM(" ++ c ++ ") as " ++ c) = true ∧
    strContains (dashboard_top_states_query c0 rest) "GROUP BY SG_UF" = true ∧
    strContains (dashboard_top_states_query c0 rest)
      ("ORDER BY SUM(" ++ c0 ++ ") DESC\n        LIMIT 5") = true ∧
    strContains (dashboard_monthly_query (c0 :: rest))
      ("SUM(" ++ c ++ ") as " ++ c) = true ∧
    strContains (dashboard_monthly_query (c0 :: rest)) "GROUP BY CO_MES" = true := by
  have hsum : ("SUM(" ++ c ++ ") as " ++ c) ∈
      (c0 :: rest).map (fun col => "SUM(" ++ col ++ ") as " ++ col) :=
    List.mem_map_of_mem _ hc
  have hagg : strContains (dashboard_agg_columns (c0 :: rest))
      ("SUM(" ++ c ++ ") as " ++ c) = true :=
    strContains_mem_pyJoin ", " _ _ hsum
  refine ⟨rfl, ?_, ?_, ?_, ?_, ?_⟩
  · simp only [dashboard_top_states_query]
    exact strContains_append_right _ _ _ (strContains_append_right _ _ _
      (strContains_append_right _ _ _ (strContains_append_left _ _ _ hagg)))
  · simp only [dashboard_top_states_query]
    exact strContains_append_right _ _ _ (strContains_append_right _ _ _
      (strContains_append_left _ _ _ (by decide)))
  · simp only [dashboard_top_states_query]
    exact strContains_append_right _ _ _
      (strContains_append_left _ _ _ (strContains_refl _))
  · simp only [dashboard_monthly_query]
    exact strContains_append_right _ _ _ (strContains_append_left _ _ _ hagg)
  · simp only [dashboard_monthly_query]
    exact strContains_append_left _ _ _ (by decide)

/-- Witness for C2 at the page's default selection `VL_FOB, KG_LIQUIDO`. -/
theorem dashboard_aggregate_query_shape_witness :
    (("VL_FOB" : String) ∈ ["VL_FOB", "KG_LIQUIDO"]) ∧
    (show_dashboard_queries ["VL_FOB", "KG_LIQUIDO"] =
      some (dashboard_top_states_query "VL_FOB" ["KG_LIQUIDO"],
            dashboard_monthly_query ["VL_FOB", "KG_LIQUIDO"]) ∧
    strContains (dashboard_top_states_query "VL_FOB" ["KG_LIQUIDO"])
      ("SUM(" ++ "VL_FOB" ++ ") as " ++ "VL_FOB") = true ∧
    strContains (dashboard_top_states_query "VL_FOB" ["KG_LIQUIDO"])
      "GROUP BY SG_UF" = true ∧
    strContains (dashboard_top_states_query "VL_FOB" ["KG_LIQUIDO"])
      ("ORDER BY SUM(" ++ "VL_FOB" ++ ") DESC\n        LIMIT 5") = true ∧
    strContains (dashboard_monthly_query ["VL_FOB", "KG_LIQUIDO"])
      ("SUM(" ++ "VL_FOB" ++ ") as " ++ "VL_FOB") = true ∧
    strContains (dashboard_monthly_query ["VL_FOB", "KG_LIQUIDO"])
      "GROUP BY CO_MES" = true) :=
  ⟨by simp,
   dashboard_aggregate_query_shape "VL_FOB" ["KG_LIQUIDO"] "VL_FOB" (by simp)⟩

/-- C6: identifiers live in the query text, lookup values in the params:
the CNPJ-search and import-analysis query texts are identical for any two
values of the lookup inputs; those inputs appear only in the parameter
tuple (`cnpj[:8]` resp. `(ano, uf)`); and in `show_export` the table
identifier is embedded directly in the query text. -/
theorem identifiers_in_text_values_in_params (c1 c2 : String)
    (h1 : c1 ≠ "") (h2 : c2 ≠ "") (cols : List String)
    (a1 u1 a2 u2 : String) (table c0 d0 : String) (cs ds : List String) :
    (show_cnpj_search_request c1).map Prod.fst =
      (show_cnpj_search_request c2).map Prod.fst ∧
    show_cnpj_search_request c1 = some (cnpj_search_query_text, [pySlice 8 c1]) ∧
    (show_import_analysis_request cols a1 u1).map Prod.fst =
      (show_import_analysis_request cols a2 u2).map Prod.fst ∧
    show_import_analysis_request (d0 :: ds) a1 u1 =
      some (import_analysis_query_text (d0 :: ds), [a1, u1]) ∧
    show_export_query table (c0 :: cs) [] =
      some ("SELECT " ++ pyJoin ", " (c0 :: cs) ++ " FROM " ++ table) ∧
    strContains ("SELECT " ++ pyJoin ", " (c0 :: cs) ++ " FROM " ++ table)
      table = true := by
  refine ⟨?_, ?_, ?_, rfl, rfl, ?_⟩
  · simp [show_cnpj_search_request, h1, h2]
  · simp [show_cnpj_search_request, h1]
  · cases cols <;> rfl
  · exact strContains_append_left _ _ _ (strContains_refl table)

/-- Witness for C6 at concrete lookup inputs. -/
theorem identifiers_in_text_values_in_params_witness :
    (("12345678000195" : String) ≠ "" ∧ ("99887766" : String) ≠ "") ∧
    ((show_cnpj_search_request "12345678000195").map Prod.fst =
      (show_cnpj_search_request "99887766").map Prod.fst ∧
    show_cnpj_search_request "12345678000195" =
      some (cnpj_search_query_text, [pySlice 8 "12345678000195"]) ∧
    (show_import_analysis_request ["VL_FOB"] "2023" "SP").map Prod.fst =
      (show_import_analysis_request ["VL_FOB"] "2024" "RJ").map Prod.fst ∧
    show_import_analysis_request ["VL_FOB"] "2023" "SP" =
      some (import_analysis_query_text ["VL_FOB"], ["2023", "SP"]) ∧
    show_export_query "Empresas" ["cnpj_basico"] [] =
      some ("SELECT " ++ pyJoin ", " ["cnpj_basico"] ++ " FROM " ++ "Empresas") ∧
    strContains ("SELECT " ++ pyJoin ", " ["cnpj_basico"] ++ " FROM " ++ "Empresas")
      "Empresas" = true) :=
  ⟨⟨by decide, by decide⟩,
   identifiers_in_text_values_in_params "12345678000195" "99887766"
     (by decide) (by decide) ["VL_FOB"] "2023" "SP" "2024" "RJ"
     "Empresas" "cnpj_basico" "VL_FOB" [] []⟩

/-- C7: `download_csv` serializes a result as its header line — the
column names in result order — followed by one line per row in result
order with pandas' default cell stringification and no index column
(`index=False`). -/
theorem download_csv_layout (df : DataFrame) :
    download_csv df =
      csvLine df.columns ++ "\n" ++
        (df.rows.map fun r => csvLine (r.map Cell.toCsvString) ++ "\n").foldr
          (· ++ ·) "" := by
  simp [download_csv, DataFrame.to_csv, writeCsvRows_no_index]

/-- C8 (code evaluated at the failing inputs): `show_import_analysis` and
`show_dashboard` open their connection unconditionally but only close it
inside the `if selected_columns:` block, so an empty selection returns
with the connection still open (count 1); likewise `execute_query`'s
`except` path skips `conn.close()`.  The non-empty paths, and
`show_cnpj_search`, do close their connection (count 0). -/
theorem connection_left_open_on_empty_selection :
    show_import_analysis_openConns [] = 1 ∧
    show_dashboard_openConns [] = 1 ∧
    show_import_analysis_openConns ["VL_FOB", "KG_LIQUIDO", "QT_ESTAT"] = 0 ∧
    show_dashboard_openConns ["VL_FOB", "KG_LIQUIDO"] = 0 ∧
    show_cnpj_search_openConns "12345678000195" = 0 ∧
    execute_query_openConns runFail "SELECT * FROM Foo" = 1 := by
  refine ⟨rfl, rfl, rfl, rfl, by decide, rfl⟩

/-- C10: the CNPJ search depends only on the first 8 characters of the
input: two non-empty inputs agreeing on `cnpj[:8]` produce the same
request (same fixed query text, same single bound parameter) and hence
the same result from any store. -/
theorem cnpj_prefix_determines_result
    (run : String → List String → ExecOutcome) (c1 c2 : String)
    (h1 : c1 ≠ "") (h2 : c2 ≠ "") (h8 : pySlice 8 c1 = pySlice 8 c2) :
    show_cnpj_search_request c1 = show_cnpj_search_request c2 ∧
    show_cnpj_search_result run c1 = show_cnpj_search_result run c2 := by
  have hreq : show_cnpj_search_request c1 = show_cnpj_search_request c2 := by
    simp [show_cnpj_search_request, h1, h2, h8]
  exact ⟨hreq, by simp [show_cnpj_search_result, hreq]⟩

/-- Witness for C10: two CNPJ inputs sharing the 8-character prefix. -/
theorem cnpj_prefix_determines_result_witness :
    (("12345678000195" : String) ≠ "" ∧ ("12345678999999" : String) ≠ "" ∧
      pySlice 8 "12345678000195" = pySlice 8 "12345678999999") ∧
    (show_cnpj_search_request "12345678000195" =
        show_cnpj_search_request "12345678999999" ∧
      show_cnpj_search_result runParam "12345678000195" =
        show_cnpj_search_result runParam "12345678999999") :=
  ⟨⟨by decide, by decide, by decide⟩,
   cnpj_prefix_determines_result runParam "12345678000195" "12345678999999"
     (by decide) (by decide) (by decide)⟩

end Comex
